import Mathlib

/-!
Verification development for the ChatGPT-Next-Web-Session-Exporter CLI
(`main.go`).  The Go functions of `main.go` are embedded as pure Lean
functions.  External collaborators (the `exporter`, `repairdata`,
`filesystem` and `interactivity` packages, and the interactive reader)
are modelled as oracle functions supplied through a `World` structure;
the embedded control flow of `main.go` branches on their results exactly
as the source does.  Side effects (prompts shown, overwrite
confirmations requested, files written, conversions invoked, messages
printed) are recorded in an explicit event trace, and process
termination (`os.Exit`) is distinguished from a normal function return
by the `Outcome` type.

Cancellation (`context.Context`) is modelled by an optional time
`cancelAt : Option Nat` at which the signal is raised, together with a
step counter threaded through the flow: an interaction step at time `t`
observes the signal iff `cancelAt = some c` with `c ≤ t`.  A call whose
Go signature does not receive the `ctx` argument is modelled by an
oracle that cannot observe the cancellation flag.
-/

/-- Go errors as compared by identity in `main.go`: the two sentinel
errors `context.Canceled` and `io.EOF`, and all other errors carried
with their message. -/
inductive GoError where
  | contextCanceled
  | ioEOF
  | other (msg : String)
deriving DecidableEq, Repr

/-- Raw file contents (`[]byte`). -/
abbrev ByteData := List Nat

/-- Observable side effects of the embedded `main.go` control flow. -/
inductive Event where
  | prompted (msg : String)
  | confirmed (file : String)
  | wroteFile (path : String)
  | convertCalled (formatOption : Int) (file : String)
  | separateCalled (sessionsFile messagesFile : String)
  | extractCalled
  | printed (msg : String)
deriving DecidableEq, Repr

/-- How a run of an embedded function ends: `os.Exit code`, or a normal
return to the caller (in which case `main` eventually returns and the
process ends with status 0). -/
inductive Outcome where
  | exit (code : Nat)
  | ret
deriving DecidableEq, Repr

/-- The process exit status resulting from an `Outcome`: an explicit
`os.Exit code` yields `code`; a normal return propagates up to `main`,
which returns, so the process exits with status 0. -/
def exitCode : Outcome → Nat
  | Outcome.exit c => c
  | Outcome.ret => 0

/-- Result of one `promptForInput` call as observed by its caller:
the returned string and the returned error (`none` = nil). -/
abbrev PromptRes := String × Option GoError

/-- `strings.TrimSpace`: drop whitespace from both ends. -/
def goTrimSpace (s : String) : String :=
  ⟨((s.data.dropWhile Char.isWhitespace).reverse.dropWhile Char.isWhitespace).reverse⟩

/-- `strings.ToLower` (ASCII case folding suffices for the answers
compared against "yes"). -/
def goToLower (s : String) : String :=
  ⟨s.data.map Char.toLower⟩

/-- Accumulate a digit string into a natural number. -/
def digitsToNat (l : List Char) : Nat :=
  l.foldl (fun a c => a * 10 + (c.toNat - 48)) 0

/-- `strconv.Atoi`: optional sign followed by at least one digit;
any other string is an error (`none`).  Integer range checks are not
modelled since format options are small. -/
def goAtoi (s : String) : Option Int :=
  let core : List Char → Option Int := fun l =>
    if l = [] then none
    else if l.all Char.isDigit then some (Int.ofNat (digitsToNat l)) else none
  match s.data with
  | '-' :: rest => (core rest).map (fun n => -n)
  | '+' :: rest => core rest
  | l => core l

/-- `promptForInput` (main.go lines 141-160): the blocking
`reader.ReadString` is raced against `ctx.Done()` in a `select`.
`cancelArrives` is the time at which the context is cancelled (`none` =
never), `readArrives` the time at which the read completes with raw
input `rawInput` and error `readErr`; when both are ready at the same
instant Go's `select` chooses pseudo-randomly, modelled by `tieToCancel`.
If the cancellation arm wins the function returns `("", ctx.Err())` and
the read result is discarded; otherwise it returns the trimmed input
with the read's error. -/
def promptForInput (cancelArrives : Option Nat) (readArrives : Nat)
    (tieToCancel : Bool) (rawInput : String) (readErr : Option GoError) : PromptRes :=
  let cancelWins :=
    match cancelArrives with
    | none => false
    | some c => decide (c < readArrives) || (decide (c = readArrives) && tieToCancel)
  if cancelWins then ("", some GoError.contextCanceled)
  else (goTrimSpace rawInput, readErr)

/-- Whether the cancellation signal raised at `cancelAt` is visible at
step time `t`. -/
def isCanceled (cancelAt : Option Nat) (t : Nat) : Bool :=
  match cancelAt with
  | none => false
  | some c => decide (c ≤ t)

/-- The observable result of a `promptForInput` call made by the flow at
step time `t`: if the context is already cancelled the select takes the
`ctx.Done()` arm and yields `("", context.Canceled)`; otherwise the
call yields the oracle result `res` (the trimmed input and read error
supplied by the environment). -/
def promptAt (cancelAt : Option Nat) (t : Nat) (res : PromptRes) : PromptRes :=
  if isCanceled cancelAt t then ("", some GoError.contextCanceled) else res

/-- Environment oracle: results of every external interaction the
`main.go` flow can perform.  Prompt fields hold the (trimmed input,
error) pair the corresponding `promptForInput` call would produce when
the context is not yet cancelled.  `confirmRes` and `convertSingleRes`
receive the cancellation flag because their Go counterparts
(`interactivity.ConfirmOverwrite`, `exporter.ConvertSessionsToCSV`)
receive `ctx`; `separateRes` and `extractRes` do not, because
`exporter.CreateSeparateCSVFiles(sessions, f1, f2)` and
`exporter.ExtractToDataset(sessions)` take no context argument and so
cannot observe cancellation. -/
structure World where
  jsonPathInput : PromptRes
  repairAnswerInput : PromptRes
  outputOptionInput : PromptRes
  formatOptionInput : PromptRes
  csvNameInput : PromptRes
  sessionsNameInput : PromptRes
  messagesNameInput : PromptRes
  saveAnswerInput : PromptRes
  fileNameInput : PromptRes
  confirmRes : Bool → String → Except GoError Bool
  writeRes : String → Option GoError
  readRes : String → Except GoError ByteData
  repairRes : ByteData → Except GoError ByteData
  parseRes : String → Except GoError Unit
  convertSingleRes : Bool → Int → String → Option GoError
  separateRes : String → String → Option GoError
  extractRes : Except GoError String

/-- Error text as produced by Go's `Error()` on the modelled errors. -/
def goErrText : GoError → String
  | GoError.contextCanceled => "context canceled"
  | GoError.ioEOF => "EOF"
  | GoError.other m => m

/-- The graceful-exit message printed for `context.Canceled` / `io.EOF`. -/
def gracefulMsg : String :=
  "[GopherHelper] Exiting gracefully...\nReason: Operation canceled or end of input. Exiting program."

/-- `handleInputError` (main.go lines 110-119): `context.Canceled` and
`io.EOF` exit with status 0 after the graceful message; every other
error prints an error message and exits with status 1. -/
def handleInputError (err : GoError) : Outcome × List Event :=
  if err = GoError.contextCanceled ∨ err = GoError.ioEOF then
    (Outcome.exit 0, [Event.printed gracefulMsg])
  else
    (Outcome.exit 1, [Event.printed ("[GopherHelper] Error reading input: " ++ goErrText err)])

/-- `repairJSONData` (main.go lines 292-316): read the input file,
repair it with `repairdata.RepairSessionData`, and on success write the
repaired bytes to `"repaired_" ++ jsonFilePath`.  Returns the Go
`(string, error)` pair together with the trace of `WriteFile` calls. -/
def repairJSONData (read : String → Except GoError ByteData)
    (repair : ByteData → Except GoError ByteData)
    (write : String → Option GoError)
    (jsonFilePath : String) : (String × Option GoError) × List Event :=
  match read jsonFilePath with
  | Except.error e => (("", some e), [])
  | Except.ok data =>
    match repair data with
    | Except.error e => (("", some e), [])
    | Except.ok _repairedData =>
      let repairedPath := "repaired_" ++ jsonFilePath
      match write repairedPath with
      | some e => (("", some e), [Event.wroteFile repairedPath])
      | none => ((repairedPath, none), [Event.wroteFile repairedPath])

/-- Prompt text constant from main.go. -/
def PromptEnterJSONFilePath : String := "Enter the path to the JSON file: "

/-- Prompt text constant from main.go. -/
def PromptRepairData : String := "Do you want to repair data? (yes/no): "

/-- Prompt text constant from main.go. -/
def PromptSelectOutputFormat : String := "Select the output format:\n1) CSV\n2) Hugging Face Dataset\n"

/-- Prompt text constant from main.go. -/
def PromptSelectCSVOutputFormat : String := "Select the message output format:\n1) Inline Formatting\n2) One Message Per Line\n3) Separate Files for Sessions and Messages\n4) JSON String in CSV\n"

/-- Prompt text constant from main.go. -/
def PromptEnterCSVFileName : String := "Enter the name of the CSV file to save: "

/-- Prompt text constant from main.go. -/
def PromptEnterSessionsCSVFileName : String := "Enter the name of the sessions CSV file to save: "

/-- Prompt text constant from main.go. -/
def PromptEnterMessagesCSVFileName : String := "Enter the name of the messages CSV file to save: "

/-- Prompt text constant from main.go. -/
def PromptSaveOutputToFile : String := "Do you want to save the output to a file? (yes/no)\n"

/-- `fmt.Sprintf(PromptEnterFileName, fileType)` from main.go. -/
def PromptEnterFileNameFor (fileType : String) : String :=
  "Enter the name of the " ++ fileType ++ " file to save: "

/-- `strings.ToTitle` as applied to the ASCII file-type names. -/
def goToUpper (s : String) : String :=
  ⟨s.data.map Char.toUpper⟩

/-- The file name actually used by `saveToFile` (main.go lines 248-253):
the extension is appended unconditionally, `.json` for the "dataset"
file type and `.csv` otherwise. -/
def saveFileName (fileType fileName : String) : String :=
  if fileType = "dataset" then fileName ++ ".json" else fileName ++ ".csv"

/-- `saveToFile` (main.go lines 226-277) at step time `t`: ask whether
to save; on "yes" ask for a file name, reject an empty name, append the
extension, confirm overwrite, and only then call `WriteFile` once.
Prompt and confirmation errors go through `handleInputError`, which
terminates the process. -/
def saveToFile (w : World) (cancelAt : Option Nat) (t : Nat)
    (_content : String) (fileType : String) : Outcome × List Event :=
  let p := promptAt cancelAt t w.saveAnswerInput
  match p.2 with
  | some e =>
    let h := handleInputError e
    (h.1, Event.prompted PromptSaveOutputToFile :: h.2)
  | none =>
    if goToLower p.1 = "yes" then
      let q := promptAt cancelAt (t + 1) w.fileNameInput
      match q.2 with
      | some e =>
        let h := handleInputError e
        (h.1, Event.prompted PromptSaveOutputToFile ::
          Event.prompted (PromptEnterFileNameFor fileType) :: h.2)
      | none =>
        if q.1 = "" then
          (Outcome.ret, [Event.prompted PromptSaveOutputToFile,
            Event.prompted (PromptEnterFileNameFor fileType),
            Event.printed "No file name entered. Operation cancelled."])
        else
          let fileName := saveFileName fileType q.1
          match w.confirmRes (isCanceled cancelAt (t + 2)) fileName with
          | Except.error e =>
            let h := handleInputError e
            (h.1, Event.prompted PromptSaveOutputToFile ::
              Event.prompted (PromptEnterFileNameFor fileType) ::
              Event.confirmed fileName :: h.2)
          | Except.ok false =>
            (Outcome.ret, [Event.prompted PromptSaveOutputToFile,
              Event.prompted (PromptEnterFileNameFor fileType),
              Event.confirmed fileName,
              Event.printed "Operation cancelled by the user."])
          | Except.ok true =>
            match w.writeRes fileName with
            | some e =>
              (Outcome.ret, [Event.prompted PromptSaveOutputToFile,
                Event.prompted (PromptEnterFileNameFor fileType),
                Event.confirmed fileName, Event.wroteFile fileName,
                Event.printed ("Error writing file: " ++ goErrText e)])
            | none =>
              (Outcome.ret, [Event.prompted PromptSaveOutputToFile,
                Event.prompted (PromptEnterFileNameFor fileType),
                Event.confirmed fileName, Event.wroteFile fileName,
                Event.printed (goToUpper fileType ++ " output saved to " ++ fileName)])
    else
      (Outcome.ret, [Event.prompted PromptSaveOutputToFile,
        Event.printed "Save to file operation cancelled by the user."])

/-- `convertToSingleCSV` (main.go lines 400-422) at step time `t`:
confirm overwrite of the target file, then call
`exporter.ConvertSessionsToCSV(ctx, sessions, formatOption, csvFileName)`.
On confirmation failure it prints a message and returns; a
`context.Canceled` conversion error prints a cancellation message and
returns; any other conversion error prints a failure message and also
merely returns. -/
def convertToSingleCSV (w : World) (cancelAt : Option Nat) (t : Nat)
    (formatOption : Int) (csvFileName : String) : Outcome × List Event :=
  match w.confirmRes (isCanceled cancelAt t) csvFileName with
  | Except.error e =>
    (Outcome.ret, [Event.confirmed csvFileName,
      Event.printed ("Failed to check file existence: " ++ goErrText e)])
  | Except.ok false =>
    (Outcome.ret, [Event.confirmed csvFileName,
      Event.printed "Operation cancelled by the user."])
  | Except.ok true =>
    match w.convertSingleRes (isCanceled cancelAt (t + 1)) formatOption csvFileName with
    | some e =>
      if e = GoError.contextCanceled then
        (Outcome.ret, [Event.confirmed csvFileName,
          Event.convertCalled formatOption csvFileName,
          Event.printed "Operation was canceled by the user."])
      else
        (Outcome.ret, [Event.confirmed csvFileName,
          Event.convertCalled formatOption csvFileName,
          Event.printed ("Failed to convert sessions to CSV: " ++ goErrText e)])
    | none =>
      (Outcome.ret, [Event.confirmed csvFileName,
        Event.convertCalled formatOption csvFileName,
        Event.printed ("CSV output saved to " ++ csvFileName)])

/-- `createSeparateCSVFiles` (main.go lines 346-396) at step time `t`:
prompt for the sessions file name (time `t`), confirm it (`t+1`), prompt
for the messages file name (`t+2`), confirm it (`t+3`), then call
`exporter.CreateSeparateCSVFiles(sessions, sessionsFileName,
messagesFileName)` — a call that does not receive `ctx`, so its oracle
result cannot depend on the cancellation signal. -/
def createSeparateCSVFiles (w : World) (cancelAt : Option Nat) (t : Nat) :
    Outcome × List Event :=
  let p1 := promptAt cancelAt t w.sessionsNameInput
  match p1.2 with
  | some e =>
    let h := handleInputError e
    (h.1, Event.prompted PromptEnterSessionsCSVFileName :: h.2)
  | none =>
    let sName := p1.1
    match w.confirmRes (isCanceled cancelAt (t + 1)) sName with
    | Except.error e =>
      let h := handleInputError e
      (h.1, Event.prompted PromptEnterSessionsCSVFileName ::
        Event.confirmed sName :: h.2)
    | Except.ok false =>
      (Outcome.ret, [Event.prompted PromptEnterSessionsCSVFileName,
        Event.confirmed sName,
        Event.printed "Operation cancelled by the user for sessions file."])
    | Except.ok true =>
      let p2 := promptAt cancelAt (t + 2) w.messagesNameInput
      match p2.2 with
      | some e =>
        let h := handleInputError e
        (h.1, Event.prompted PromptEnterSessionsCSVFileName ::
          Event.confirmed sName ::
          Event.prompted PromptEnterMessagesCSVFileName :: h.2)
      | none =>
        let mName := p2.1
        match w.confirmRes (isCanceled cancelAt (t + 3)) mName with
        | Except.error e =>
          let h := handleInputError e
          (h.1, Event.prompted PromptEnterSessionsCSVFileName ::
            Event.confirmed sName ::
            Event.prompted PromptEnterMessagesCSVFileName ::
            Event.confirmed mName :: h.2)
        | Except.ok false =>
          (Outcome.ret, [Event.prompted PromptEnterSessionsCSVFileName,
            Event.confirmed sName,
            Event.prompted PromptEnterMessagesCSVFileName,
            Event.confirmed mName,
            Event.printed "Operation cancelled by the user for messages file."])
        | Except.ok true =>
          match w.separateRes sName mName with
          | some e =>
            if e = GoError.contextCanceled ∨ e = GoError.ioEOF then
              (Outcome.exit 0, [Event.prompted PromptEnterSessionsCSVFileName,
                Event.confirmed sName,
                Event.prompted PromptEnterMessagesCSVFileName,
                Event.confirmed mName,
                Event.separateCalled sName mName,
                Event.printed gracefulMsg])
            else
              (Outcome.exit 1, [Event.prompted PromptEnterSessionsCSVFileName,
                Event.confirmed sName,
                Event.prompted PromptEnterMessagesCSVFileName,
                Event.confirmed mName,
                Event.separateCalled sName mName,
                Event.printed ("Error reading input: " ++ goErrText e)])
          | none =>
            (Outcome.ret, [Event.prompted PromptEnterSessionsCSVFileName,
              Event.confirmed sName,
              Event.prompted PromptEnterMessagesCSVFileName,
              Event.confirmed mName,
              Event.separateCalled sName mName,
              Event.printed ("Sessions data saved to " ++ sName),
              Event.printed ("Messages data saved to " ++ mName)])

/-- `executeCSVConversion` (main.go lines 320-342) at step time `t`:
for any format option other than 3 it first prompts for the CSV file
name, then dispatches — option 3 to `createSeparateCSVFiles`, every
other option (valid or not) to `convertToSingleCSV`. -/
def executeCSVConversion (w : World) (cancelAt : Option Nat) (t : Nat)
    (formatOption : Int) : Outcome × List Event :=
  if formatOption = 3 then
    createSeparateCSVFiles w cancelAt t
  else
    let p := promptAt cancelAt t w.csvNameInput
    match p.2 with
    | some e =>
      let h := handleInputError e
      (h.1, Event.prompted PromptEnterCSVFileName :: h.2)
    | none =>
      let r := convertToSingleCSV w cancelAt (t + 1) formatOption p.1
      (r.1, Event.prompted PromptEnterCSVFileName :: r.2)

/-- `processCSVOption` (main.go lines 180-204) at step time `t`: prompt
for the CSV format option; prompt errors exit (gracefully for
`context.Canceled` / `io.EOF`); a string `strconv.Atoi` rejects prints
"Invalid format option." and returns; any successfully parsed number is
passed on to `executeCSVConversion` unchecked. -/
def processCSVOption (w : World) (cancelAt : Option Nat) (t : Nat) :
    Outcome × List Event :=
  let p := promptAt cancelAt t w.formatOptionInput
  match p.2 with
  | some e =>
    if e = GoError.contextCanceled ∨ e = GoError.ioEOF then
      (Outcome.exit 0, [Event.prompted PromptSelectCSVOutputFormat,
        Event.printed gracefulMsg])
    else
      (Outcome.exit 1, [Event.prompted PromptSelectCSVOutputFormat,
        Event.printed ("Error reading input: " ++ goErrText e)])
  | none =>
    match goAtoi p.1 with
    | none =>
      (Outcome.ret, [Event.prompted PromptSelectCSVOutputFormat,
        Event.printed "Invalid format option."])
    | some n =>
      let r := executeCSVConversion w cancelAt (t + 1) n
      (r.1, Event.prompted PromptSelectCSVOutputFormat :: r.2)

/-- `processDatasetOption` (main.go lines 208-222) at step time `t`:
call `exporter.ExtractToDataset(sessions)` (no context argument); on
error exit (gracefully for the sentinel errors), on success hand the
output to `saveToFile` with file type "dataset". -/
def processDatasetOption (w : World) (cancelAt : Option Nat) (t : Nat) :
    Outcome × List Event :=
  match w.extractRes with
  | Except.error e =>
    if e = GoError.contextCanceled ∨ e = GoError.ioEOF then
      (Outcome.exit 0, [Event.extractCalled, Event.printed gracefulMsg])
    else
      (Outcome.exit 1, [Event.extractCalled,
        Event.printed ("Error reading input: " ++ goErrText e)])
  | Except.ok out =>
    let r := saveToFile w cancelAt t out "dataset"
    (r.1, Event.extractCalled :: r.2)

/-- `processOutputOption` (main.go lines 164-173) at step time `t`:
"1" goes to the CSV flow, "2" to the dataset flow, anything else prints
"Invalid output option." and returns with no further interaction. -/
def processOutputOption (w : World) (cancelAt : Option Nat) (t : Nat)
    (outputOption : String) : Outcome × List Event :=
  if outputOption = "1" then processCSVOption w cancelAt t
  else if outputOption = "2" then processDatasetOption w cancelAt t
  else (Outcome.ret, [Event.printed "Invalid output option."])

/-- `main` (main.go lines 49-107): prompt for the JSON path (time 0) and
the repair answer (time 1); if the answer lowercases to "yes", run
`repairJSONData` and exit — status 1 on error, status 0 on success with
the repaired path printed; otherwise parse the store, prompt for the
output option (time 2) and dispatch to `processOutputOption` (time 3). -/
def mainFlow (w : World) (cancelAt : Option Nat) : Outcome × List Event :=
  let p0 := promptAt cancelAt 0 w.jsonPathInput
  match p0.2 with
  | some e =>
    let h := handleInputError e
    (h.1, Event.prompted PromptEnterJSONFilePath :: h.2)
  | none =>
    let jsonFilePath := p0.1
    let p1 := promptAt cancelAt 1 w.repairAnswerInput
    match p1.2 with
    | some e =>
      let h := handleInputError e
      (h.1, Event.prompted PromptEnterJSONFilePath ::
        Event.prompted PromptRepairData :: h.2)
    | none =>
      if goToLower p1.1 = "yes" then
        let r := repairJSONData w.readRes w.repairRes w.writeRes jsonFilePath
        match r.1.2 with
        | some e =>
          (Outcome.exit 1, Event.prompted PromptEnterJSONFilePath ::
            Event.prompted PromptRepairData ::
            (r.2 ++ [Event.printed ("Error: " ++ goErrText e)]))
        | none =>
          (Outcome.exit 0, Event.prompted PromptEnterJSONFilePath ::
            Event.prompted PromptRepairData ::
            (r.2 ++ [Event.printed ("Repaired JSON data has been saved to: " ++ r.1.1)]))
      else
        match w.parseRes jsonFilePath with
        | Except.error e =>
          (Outcome.exit 1, [Event.prompted PromptEnterJSONFilePath,
            Event.prompted PromptRepairData,
            Event.printed ("Error reading or parsing the JSON file: " ++ goErrText e)])
        | Except.ok _ =>
          let p2 := promptAt cancelAt 2 w.outputOptionInput
          match p2.2 with
          | some e =>
            let h := handleInputError e
            (h.1, Event.prompted PromptEnterJSONFilePath ::
              Event.prompted PromptRepairData ::
              Event.prompted PromptSelectOutputFormat :: h.2)
          | none =>
            let r := processOutputOption w cancelAt 3 p2.1
            (r.1, Event.prompted PromptEnterJSONFilePath ::
              Event.prompted PromptRepairData ::
              Event.prompted PromptSelectOutputFormat :: r.2)

/-- The `WriteFile` calls recorded in a trace. -/
def writeEvents (evs : List Event) : List Event :=
  evs.filter fun e =>
    match e with
    | Event.wroteFile _ => true
    | _ => false

/-- Whether a trace reaches any export stage: a CSV conversion, a
separate-files conversion, or the dataset extractor. -/
def reachesExport (evs : List Event) : Bool :=
  evs.any fun e =>
    match e with
    | Event.convertCalled _ _ => true
    | Event.separateCalled _ _ => true
    | Event.extractCalled => true
    | _ => false

/-- Prefixing a string with "repaired_" always changes it. -/
theorem repaired_prefix_ne (p : String) : "repaired_" ++ p ≠ p := by
  intro h
  have hl : ("repaired_".data ++ p.data).length = p.data.length :=
    congrArg (fun s => s.data.length) h
  rw [List.length_append] at hl
  have h9 : "repaired_".data.length = 9 := by decide
  rw [h9] at hl
  omega

/-- `handleInputError` never writes a file. -/
theorem handleInputError_no_write (e : GoError) :
    writeEvents (handleInputError e).2 = [] := by
  unfold handleInputError
  split <;> rfl

/-- C9: handleInputError treats io.EOF exactly like context.Canceled —
both print the graceful message and exit with status 0 — while every
other error exits with status 1 after an error message; end of stdin is
never reported as a failure. -/
theorem C9_eof_treated_as_cancel :
    handleInputError GoError.contextCanceled = (Outcome.exit 0, [Event.printed gracefulMsg])
    ∧ handleInputError GoError.ioEOF = (Outcome.exit 0, [Event.printed gracefulMsg])
    ∧ ∀ s : String, handleInputError (GoError.other s) =
        (Outcome.exit 1, [Event.printed ("[GopherHelper] Error reading input: " ++ s)]) := by
  refine ⟨rfl, rfl, fun s => ?_⟩
  simp [handleInputError, goErrText]

/-- C8: promptForInput races the blocking read against the cancellation
signal: if cancellation arrives first the result is ("", context.Canceled);
if the read completes first the result is the trimmed input with the
read's error; with no cancellation the read result is returned; and when
the cancellation arm wins, the read's result is discarded — the returned
value does not depend on it. -/
theorem C8_prompt_race :
    (∀ (c rt : Nat) (tb : Bool) (raw : String) (re : Option GoError), c < rt →
        promptForInput (some c) rt tb raw re = ("", some GoError.contextCanceled))
    ∧ (∀ (c rt : Nat) (tb : Bool) (raw : String) (re : Option GoError), rt < c →
        promptForInput (some c) rt tb raw re = (goTrimSpace raw, re))
    ∧ (∀ (rt : Nat) (tb : Bool) (raw : String) (re : Option GoError),
        promptForInput none rt tb raw re = (goTrimSpace raw, re))
    ∧ (∀ (c rt : Nat) (tb : Bool) (raw raw' : String) (re re' : Option GoError), c < rt →
        promptForInput (some c) rt tb raw re = promptForInput (some c) rt tb raw' re') := by
  refine ⟨fun c rt tb raw re h => ?_, fun c rt tb raw re h => ?_,
    fun rt tb raw re => rfl, fun c rt tb raw raw' re re' h => ?_⟩
  · simp [promptForInput, h]
  · have h1 : ¬ c < rt := Nat.lt_asymm h
    have h2 : c ≠ rt := (ne_of_gt h)
    simp [promptForInput, h1, h2]
  · simp [promptForInput, h]

/-- Witness for C8 at a concrete race outcome. -/
theorem C8_prompt_race_witness :
    promptForInput (some 0) 1 false " path " none = ("", some GoError.contextCanceled) :=
  C8_prompt_race.1 0 1 false " path " none (by decide)

/-- C1: if repairdata.RepairSessionData fails, repairJSONData returns
that error with an empty result path and performs no WriteFile call;
moreover any WriteFile call implies the repair succeeded. -/
theorem C1_repair_failure_no_write :
    (∀ (read : String → Except GoError ByteData)
        (repair : ByteData → Except GoError ByteData)
        (write : String → Option GoError) (p : String) (data : ByteData) (e : GoError),
        read p = Except.ok data → repair data = Except.error e →
        repairJSONData read repair write p = (("", some e), []))
    ∧ (∀ (read : String → Except GoError ByteData)
        (repair : ByteData → Except GoError ByteData)
        (write : String → Option GoError) (p : String),
        writeEvents (repairJSONData read repair write p).2 ≠ [] →
        ∃ data rd, read p = Except.ok data ∧ repair data = Except.ok rd) := by
  constructor
  · intro read repair write p data e h1 h2
    simp [repairJSONData, h1, h2]
  · intro read repair write p h
    cases hr : read p with
    | error e => simp [repairJSONData, writeEvents, hr] at h
    | ok data =>
      cases hrep : repair data with
      | error e => simp [repairJSONData, writeEvents, hr, hrep] at h
      | ok rd => exact ⟨data, rd, rfl, hrep⟩

/-- Concrete oracle for the C1 witness: the read succeeds and the repair
reports unrecoverable damage. -/
def c1Read : String → Except GoError ByteData := fun _ => Except.ok [123]

/-- Concrete repair oracle for the C1 witness. -/
def c1Repair : ByteData → Except GoError ByteData :=
  fun _ => Except.error (GoError.other "RepairFailed")

/-- Concrete write oracle for the C1 witness. -/
def c1Write : String → Option GoError := fun _ => none

/-- Witness for C1: a failing repair yields the error, an empty path and
an empty write trace. -/
theorem C1_repair_failure_no_write_witness :
    repairJSONData c1Read c1Repair c1Write "a.json" =
      (("", some (GoError.other "RepairFailed")), []) :=
  C1_repair_failure_no_write.1 c1Read c1Repair c1Write "a.json" [123]
    (GoError.other "RepairFailed") rfl rfl

/-- C2: a successful repair returns the path "repaired_" ++ input path —
a path distinct from the input — and the only WriteFile call is to that
new path; the original input file is never written. -/
theorem C2_repaired_path_distinct :
    ∀ (read : String → Except GoError ByteData)
      (repair : ByteData → Except GoError ByteData)
      (write : String → Option GoError) (p np : String),
      (repairJSONData read repair write p).1 = (np, none) →
      np = "repaired_" ++ p ∧ np ≠ p
      ∧ (repairJSONData read repair write p).2 = [Event.wroteFile ("repaired_" ++ p)]
      ∧ Event.wroteFile p ∉ (repairJSONData read repair write p).2 := by
  intro read repair write p np h
  cases hr : read p with
  | error e => simp [repairJSONData, hr] at h
  | ok data =>
    cases hrep : repair data with
    | error e => simp [repairJSONData, hr, hrep] at h
    | ok rd =>
      cases hw : write ("repaired_" ++ p) with
      | some e => simp [repairJSONData, hr, hrep, hw] at h
      | none =>
        simp [repairJSONData, hr, hrep, hw] at h
        refine ⟨h.symm, ?_, ?_, ?_⟩
        · rw [← h]; exact repaired_prefix_ne p
        · simp [repairJSONData, hr, hrep, hw]
        · simp [repairJSONData, hr, hrep, hw]
          intro hcontra
          exact repaired_prefix_ne p hcontra.symm

/-- Concrete read oracle for the C2 witness. -/
def c2Read : String → Except GoError ByteData := fun _ => Except.ok [91, 93]

/-- Concrete repair oracle for the C2 witness: repair succeeds. -/
def c2Repair : ByteData → Except GoError ByteData := fun d => Except.ok d

/-- Concrete write oracle for the C2 witness. -/
def c2Write : String → Option GoError := fun _ => none

/-- Witness for C2 at a concrete successful repair. -/
theorem C2_repaired_path_distinct_witness :
    "repaired_a.json" = "repaired_" ++ "a.json" ∧ "repaired_a.json" ≠ "a.json"
    ∧ (repairJSONData c2Read c2Repair c2Write "a.json").2 =
        [Event.wroteFile ("repaired_" ++ "a.json")]
    ∧ Event.wroteFile "a.json" ∉ (repairJSONData c2Read c2Repair c2Write "a.json").2 :=
  C2_repaired_path_distinct c2Read c2Repair c2Write "a.json" "repaired_a.json" (by decide)

/-- The write trace of `repairJSONData` is empty or the single write of
the repaired path. -/
theorem repair_trace_events :
    ∀ (read : String → Except GoError ByteData)
      (repair : ByteData → Except GoError ByteData)
      (write : String → Option GoError) (p : String),
      (repairJSONData read repair write p).2 = []
      ∨ (repairJSONData read repair write p).2 = [Event.wroteFile ("repaired_" ++ p)] := by
  intro read repair write p
  cases hr : read p with
  | error e => left; simp [repairJSONData, hr]
  | ok data =>
    cases hrep : repair data with
    | error e => left; simp [repairJSONData, hr, hrep]
    | ok rd =>
      cases hw : write ("repaired_" ++ p) with
      | some e => right; simp [repairJSONData, hr, hrep, hw]
      | none => right; simp [repairJSONData, hr, hrep, hw]

/-- Concrete environment for C3: the user answers "yes" to repair, the
read and the repair both succeed, and every later stage would also
succeed if it were ever reached. -/
def c3World : World where
  jsonPathInput := ("a.json", none)
  repairAnswerInput := ("yes", none)
  outputOptionInput := ("1", none)
  formatOptionInput := ("1", none)
  csvNameInput := ("out", none)
  sessionsNameInput := ("s", none)
  messagesNameInput := ("m", none)
  saveAnswerInput := ("yes", none)
  fileNameInput := ("f", none)
  confirmRes := fun _ _ => Except.ok true
  writeRes := fun _ => none
  readRes := fun _ => Except.ok [123, 125]
  repairRes := fun d => Except.ok d
  parseRes := fun _ => Except.ok ()
  convertSingleRes := fun _ _ _ => none
  separateRes := fun _ _ => none
  extractRes := Except.ok "[]"

/-- Counterexample to C3: with the repair option selected and the repair
succeeding, the program writes the repaired file and exits with status 0
without ever invoking the store loader, a CSV conversion or the dataset
extractor — repair is a terminal mode, not a stage of the export
pipeline. -/
theorem C3_counterexample :
    (mainFlow c3World none).1 = Outcome.exit 0
    ∧ reachesExport (mainFlow c3World none).2 = false
    ∧ Event.wroteFile "repaired_a.json" ∈ (mainFlow c3World none).2 := by
  decide

/-- C3 amended: when the user selects the repair option, `main` treats
repair as a terminal mode: it exits the process (status 0 on success,
after writing the repaired file; status 1 on failure) and no export
stage — CSV conversion, separate-files conversion or dataset
extraction — is ever reached in that invocation. -/
theorem C3_amended_repair_is_terminal :
    ∀ (w : World) (cancelAt : Option Nat),
      (promptAt cancelAt 0 w.jsonPathInput).2 = none →
      (promptAt cancelAt 1 w.repairAnswerInput).2 = none →
      goToLower (promptAt cancelAt 1 w.repairAnswerInput).1 = "yes" →
      ((mainFlow w cancelAt).1 = Outcome.exit 0 ∨ (mainFlow w cancelAt).1 = Outcome.exit 1)
      ∧ reachesExport (mainFlow w cancelAt).2 = false
      ∧ ((repairJSONData w.readRes w.repairRes w.writeRes
            (promptAt cancelAt 0 w.jsonPathInput).1).1.2 = none →
          (mainFlow w cancelAt).1 = Outcome.exit 0) := by
  intro w cancelAt h0 h1 h2
  have hshape := repair_trace_events w.readRes w.repairRes w.writeRes
    (promptAt cancelAt 0 w.jsonPathInput).1
  rcases hrr : repairJSONData w.readRes w.repairRes w.writeRes
    (promptAt cancelAt 0 w.jsonPathInput).1 with ⟨⟨np, oe⟩, evs⟩
  rw [hrr] at hshape
  simp only at hshape
  cases oe with
  | some e =>
    refine ⟨Or.inr ?_, ?_, ?_⟩
    · simp [mainFlow, h0, h1, h2, hrr]
    · rcases hshape with hsh | hsh <;>
        simp [mainFlow, h0, h1, h2, hrr, reachesExport, hsh]
    · intro hc
      simp at hc
  | none =>
    refine ⟨Or.inl ?_, ?_, fun _ => ?_⟩
    · simp [mainFlow, h0, h1, h2, hrr]
    · rcases hshape with hsh | hsh <;>
        simp [mainFlow, h0, h1, h2, hrr, reachesExport, hsh]
    · simp [mainFlow, h0, h1, h2, hrr]

/-- Witness for the amended C3 at a concrete world. -/
theorem C3_amended_repair_is_terminal_witness :
    ((mainFlow c3World none).1 = Outcome.exit 0 ∨ (mainFlow c3World none).1 = Outcome.exit 1)
    ∧ reachesExport (mainFlow c3World none).2 = false
    ∧ ((repairJSONData c3World.readRes c3World.repairRes c3World.writeRes
          (promptAt none 0 c3World.jsonPathInput).1).1.2 = none →
        (mainFlow c3World none).1 = Outcome.exit 0) :=
  C3_amended_repair_is_terminal c3World none (by decide) (by decide) (by decide)

/-- Concrete environment for C4: the user asks to save the dataset and
enters a file name that already carries the ".json" extension. -/
def c4World : World where
  jsonPathInput := ("a.json", none)
  repairAnswerInput := ("no", none)
  outputOptionInput := ("2", none)
  formatOptionInput := ("1", none)
  csvNameInput := ("out", none)
  sessionsNameInput := ("s", none)
  messagesNameInput := ("m", none)
  saveAnswerInput := ("yes", none)
  fileNameInput := ("data.json", none)
  confirmRes := fun _ _ => Except.ok true
  writeRes := fun _ => none
  readRes := fun _ => Except.ok [123, 125]
  repairRes := fun d => Except.ok d
  parseRes := fun _ => Except.ok ()
  convertSingleRes := fun _ _ _ => none
  separateRes := fun _ _ => none
  extractRes := Except.ok "[]"

/-- Counterexample to C4: the entered name "data.json" already ends in
the proper extension, yet saveToFile writes "data.json.json" — the
extension is appended unconditionally, never left off. -/
theorem C4_counterexample :
    saveFileName "dataset" "data.json" = "data.json.json"
    ∧ Event.wroteFile "data.json.json" ∈ (saveToFile c4World none 0 "[]" "dataset").2
    ∧ Event.wroteFile "data.json" ∉ (saveToFile c4World none 0 "[]" "dataset").2 := by
  decide

/-- `saveFileName` always appends the extension to the entered name. -/
theorem saveFileName_append (fileType n : String) :
    saveFileName fileType n = n ++ (if fileType = "dataset" then ".json" else ".csv") := by
  unfold saveFileName
  split <;> simp_all

/-- C4 amended: saveToFile appends the ".json" extension (dataset) or
".csv" extension (otherwise) to the entered destination name
unconditionally: on the write path the written file is always the
entered name with the extension appended, even when the name already
ends in that extension. -/
theorem C4_amended_extension_always_appended :
    ∀ (w : World) (cancelAt : Option Nat) (t : Nat) (content fileType n : String),
      (promptAt cancelAt t w.saveAnswerInput).2 = none →
      goToLower (promptAt cancelAt t w.saveAnswerInput).1 = "yes" →
      promptAt cancelAt (t + 1) w.fileNameInput = (n, none) →
      n ≠ "" →
      w.confirmRes (isCanceled cancelAt (t + 2)) (saveFileName fileType n) = Except.ok true →
      Event.wroteFile (n ++ (if fileType = "dataset" then ".json" else ".csv"))
        ∈ (saveToFile w cancelAt t content fileType).2 := by
  intro w cancelAt t content fileType n h0 h1 h2 h3 h4
  rw [← saveFileName_append]
  cases hw : w.writeRes (saveFileName fileType n) with
  | some e => simp [saveToFile, h0, h1, h2, h3, h4, hw]
  | none => simp [saveToFile, h0, h1, h2, h3, h4, hw]

/-- Witness for the amended C4: with entered name "data.json" the write
goes to "data.json.json". -/
theorem C4_amended_extension_always_appended_witness :
    Event.wroteFile ("data.json" ++ (if "dataset" = "dataset" then ".json" else ".csv"))
      ∈ (saveToFile c4World none 0 "[]" "dataset").2 :=
  C4_amended_extension_always_appended c4World none 0 "[]" "dataset" "data.json"
    (by decide) (by decide) (by decide) (by decide) rfl

/-- Concrete environment for C5: the overwrite is confirmed and the CSV
conversion fails with an ordinary (non-cancellation) error. -/
def c5World : World where
  jsonPathInput := ("a.json", none)
  repairAnswerInput := ("no", none)
  outputOptionInput := ("1", none)
  formatOptionInput := ("1", none)
  csvNameInput := ("out.csv", none)
  sessionsNameInput := ("s", none)
  messagesNameInput := ("m", none)
  saveAnswerInput := ("yes", none)
  fileNameInput := ("f", none)
  confirmRes := fun _ _ => Except.ok true
  writeRes := fun _ => none
  readRes := fun _ => Except.ok [123, 125]
  repairRes := fun d => Except.ok d
  parseRes := fun _ => Except.ok ()
  convertSingleRes := fun _ _ _ => some (GoError.other "disk full")
  separateRes := fun _ _ => none
  extractRes := Except.ok "[]"

/-- Counterexample to C5: a terminal conversion failure that is not
context.Canceled prints an error message but convertToSingleCSV merely
returns, so the process finishes with exit status 0 — not the non-zero
status the claim requires for every non-cancellation terminal error. -/
theorem C5_counterexample :
    (convertToSingleCSV c5World none 0 1 "out.csv").1 = Outcome.ret
    ∧ exitCode (convertToSingleCSV c5World none 0 1 "out.csv").1 = 0
    ∧ Event.printed ("Failed to convert sessions to CSV: disk full")
        ∈ (convertToSingleCSV c5World none 0 1 "out.csv").2 := by
  decide

/-- C5 amended: cancellation is a distinct graceful path (exit status 0
for Canceled/EOF input errors, a cancellation message and a plain return
for a canceled conversion); other input errors exit with status 1, and
repair and parse failures exit with status 1; but a non-canceled
conversion failure in convertToSingleCSV only prints an error message
and returns, so the process ends with exit status 0 rather than a
non-zero status. -/
theorem C5_amended_exit_statuses :
    (∀ e : GoError, (e = GoError.contextCanceled ∨ e = GoError.ioEOF) →
        handleInputError e = (Outcome.exit 0, [Event.printed gracefulMsg]))
    ∧ (∀ e : GoError, e ≠ GoError.contextCanceled → e ≠ GoError.ioEOF →
        (handleInputError e).1 = Outcome.exit 1)
    ∧ (∀ (w : World) (cancelAt : Option Nat) (e : GoError),
        (promptAt cancelAt 0 w.jsonPathInput).2 = none →
        (promptAt cancelAt 1 w.repairAnswerInput).2 = none →
        goToLower (promptAt cancelAt 1 w.repairAnswerInput).1 = "yes" →
        (repairJSONData w.readRes w.repairRes w.writeRes
          (promptAt cancelAt 0 w.jsonPathInput).1).1.2 = some e →
        (mainFlow w cancelAt).1 = Outcome.exit 1)
    ∧ (∀ (w : World) (cancelAt : Option Nat) (e : GoError),
        (promptAt cancelAt 0 w.jsonPathInput).2 = none →
        (promptAt cancelAt 1 w.repairAnswerInput).2 = none →
        ¬ goToLower (promptAt cancelAt 1 w.repairAnswerInput).1 = "yes" →
        w.parseRes (promptAt cancelAt 0 w.jsonPathInput).1 = Except.error e →
        (mainFlow w cancelAt).1 = Outcome.exit 1)
    ∧ (∀ (w : World) (cancelAt : Option Nat) (t : Nat) (fo : Int) (name : String),
        w.confirmRes (isCanceled cancelAt t) name = Except.ok true →
        w.convertSingleRes (isCanceled cancelAt (t + 1)) fo name =
          some GoError.contextCanceled →
        (convertToSingleCSV w cancelAt t fo name).1 = Outcome.ret
        ∧ Event.printed "Operation was canceled by the user."
            ∈ (convertToSingleCSV w cancelAt t fo name).2
        ∧ exitCode (convertToSingleCSV w cancelAt t fo name).1 = 0)
    ∧ (∀ (w : World) (cancelAt : Option Nat) (t : Nat) (fo : Int) (name : String)
        (e : GoError),
        w.confirmRes (isCanceled cancelAt t) name = Except.ok true →
        w.convertSingleRes (isCanceled cancelAt (t + 1)) fo name = some e →
        e ≠ GoError.contextCanceled →
        (convertToSingleCSV w cancelAt t fo name).1 = Outcome.ret
        ∧ exitCode (convertToSingleCSV w cancelAt t fo name).1 = 0
        ∧ Event.printed ("Failed to convert sessions to CSV: " ++ goErrText e)
            ∈ (convertToSingleCSV w cancelAt t fo name).2) := by
  refine ⟨?_, ?_, ?_, ?_, ?_, ?_⟩
  · intro e he
    rcases he with he | he <;> simp [handleInputError, he]
  · intro e h1 h2
    simp [handleInputError, h1, h2]
  · intro w cancelAt e h0 h1 h2 hrep
    rcases hrr : repairJSONData w.readRes w.repairRes w.writeRes
      (promptAt cancelAt 0 w.jsonPathInput).1 with ⟨⟨np, oe⟩, evs⟩
    rw [hrr] at hrep
    simp at hrep
    subst hrep
    simp [mainFlow, h0, h1, h2, hrr]
  · intro w cancelAt e h0 h1 h2 hparse
    simp [mainFlow, h0, h1, h2, hparse]
  · intro w cancelAt t fo name hc hconv
    simp [convertToSingleCSV, hc, hconv, exitCode]
  · intro w cancelAt t fo name e hc hconv hne
    simp [convertToSingleCSV, hc, hconv, hne, exitCode]

/-- Witness for the amended C5: the non-canceled conversion failure path
at a concrete world. -/
theorem C5_amended_exit_statuses_witness :
    (convertToSingleCSV c5World none 0 1 "out.csv").1 = Outcome.ret
    ∧ exitCode (convertToSingleCSV c5World none 0 1 "out.csv").1 = 0
    ∧ Event.printed ("Failed to convert sessions to CSV: " ++ goErrText (GoError.other "disk full"))
        ∈ (convertToSingleCSV c5World none 0 1 "out.csv").2 :=
  C5_amended_exit_statuses.2.2.2.2.2 c5World none 0 1 "out.csv" (GoError.other "disk full")
    rfl rfl (by decide)

/-- writeEvents computation rule. -/
@[simp] theorem writeEvents_nil : writeEvents [] = [] := rfl

/-- writeEvents computation rule. -/
@[simp] theorem writeEvents_prompted (m : String) (l : List Event) :
    writeEvents (Event.prompted m :: l) = writeEvents l := rfl

/-- writeEvents computation rule. -/
@[simp] theorem writeEvents_confirmed (m : String) (l : List Event) :
    writeEvents (Event.confirmed m :: l) = writeEvents l := rfl

/-- writeEvents computation rule. -/
@[simp] theorem writeEvents_printed (m : String) (l : List Event) :
    writeEvents (Event.printed m :: l) = writeEvents l := rfl

/-- writeEvents computation rule. -/
@[simp] theorem writeEvents_wrote (m : String) (l : List Event) :
    writeEvents (Event.wroteFile m :: l) = Event.wroteFile m :: writeEvents l := rfl

/-- writeEvents computation rule. -/
@[simp] theorem writeEvents_extract (l : List Event) :
    writeEvents (Event.extractCalled :: l) = writeEvents l := rfl

/-- A signal that is not yet visible at a later time is not visible at
any earlier time. -/
theorem isCanceled_mono_false (c : Option Nat) (t t' : Nat) (h : t ≤ t')
    (hf : isCanceled c t' = false) : isCanceled c t = false := by
  cases c with
  | none => rfl
  | some n =>
    simp [isCanceled] at hf ⊢
    omega

/-- Concrete environment for C6: both file-name prompts and both
overwrite confirmations succeed and the separate-files conversion
succeeds. -/
def c6World : World where
  jsonPathInput := ("a.json", none)
  repairAnswerInput := ("no", none)
  outputOptionInput := ("1", none)
  formatOptionInput := ("3", none)
  csvNameInput := ("out", none)
  sessionsNameInput := ("s.csv", none)
  messagesNameInput := ("m.csv", none)
  saveAnswerInput := ("yes", none)
  fileNameInput := ("f", none)
  confirmRes := fun _ _ => Except.ok true
  writeRes := fun _ => none
  readRes := fun _ => Except.ok [123, 125]
  repairRes := fun d => Except.ok d
  parseRes := fun _ => Except.ok ()
  convertSingleRes := fun _ _ _ => none
  separateRes := fun _ _ => none
  extractRes := Except.ok "[]"

/-- Counterexample to C6: the cancellation signal is raised at time 4 —
after the four prompt/confirmation steps (times 0-3) but already active
when the separate-files conversion step runs — yet the conversion is
still invoked and completes both files, because
`exporter.CreateSeparateCSVFiles` is called without the cancellation
token. -/
theorem C6_counterexample :
    isCanceled (some 4) 4 = true
    ∧ Event.separateCalled "s.csv" "m.csv" ∈ (createSeparateCSVFiles c6World (some 4) 0).2
    ∧ (createSeparateCSVFiles c6World (some 4) 0).1 = Outcome.ret
    ∧ Event.printed ("Messages data saved to m.csv")
        ∈ (createSeparateCSVFiles c6World (some 4) 0).2 := by
  decide

/-- C6 amended: in `createSeparateCSVFiles` only the prompting and
confirmation steps observe the cancellation signal — a signal already
raised at the first prompt aborts the flow gracefully before any
conversion — but the separate-files conversion itself is invoked
without the cancellation token: once the four interactive steps have
passed uncancelled, the entire result is independent of when (or
whether) cancellation is raised from the conversion step onward. -/
theorem C6_amended_separate_conversion_unaware :
    (∀ (w : World) (cancelAt : Option Nat) (t : Nat),
        isCanceled cancelAt t = true →
        createSeparateCSVFiles w cancelAt t =
          (Outcome.exit 0, [Event.prompted PromptEnterSessionsCSVFileName,
            Event.printed gracefulMsg]))
    ∧ (∀ (w : World) (c1 c2 : Option Nat) (t : Nat),
        isCanceled c1 (t + 3) = false → isCanceled c2 (t + 3) = false →
        createSeparateCSVFiles w c1 t = createSeparateCSVFiles w c2 t) := by
  constructor
  · intro w cancelAt t h
    simp [createSeparateCSVFiles, promptAt, h, handleInputError]
  · intro w c1 c2 t h1 h2
    have h10 : isCanceled c1 t = false := isCanceled_mono_false c1 t (t + 3) (by omega) h1
    have h11 : isCanceled c1 (t + 1) = false :=
      isCanceled_mono_false c1 (t + 1) (t + 3) (by omega) h1
    have h12 : isCanceled c1 (t + 2) = false :=
      isCanceled_mono_false c1 (t + 2) (t + 3) (by omega) h1
    have h20 : isCanceled c2 t = false := isCanceled_mono_false c2 t (t + 3) (by omega) h2
    have h21 : isCanceled c2 (t + 1) = false :=
      isCanceled_mono_false c2 (t + 1) (t + 3) (by omega) h2
    have h22 : isCanceled c2 (t + 2) = false :=
      isCanceled_mono_false c2 (t + 2) (t + 3) (by omega) h2
    simp only [createSeparateCSVFiles, promptAt, h10, h11, h12, h1, h20, h21, h22, h2,
      Bool.false_eq_true, if_false]

/-- Witness for the amended C6: cancellation raised before the first
prompt aborts the separate-files flow gracefully. -/
theorem C6_amended_separate_conversion_unaware_witness :
    createSeparateCSVFiles c6World (some 0) 0 =
      (Outcome.exit 0, [Event.prompted PromptEnterSessionsCSVFileName,
        Event.printed gracefulMsg]) :=
  C6_amended_separate_conversion_unaware.1 c6World (some 0) 0 (by decide)

/-- Concrete environment for C7: the CSV format option is "5" — numeric
but outside the recognized set {1,2,3,4}. -/
def c7World : World where
  jsonPathInput := ("a.json", none)
  repairAnswerInput := ("no", none)
  outputOptionInput := ("1", none)
  formatOptionInput := ("5", none)
  csvNameInput := ("out", none)
  sessionsNameInput := ("s", none)
  messagesNameInput := ("m", none)
  saveAnswerInput := ("yes", none)
  fileNameInput := ("f", none)
  confirmRes := fun _ _ => Except.ok true
  writeRes := fun _ => none
  readRes := fun _ => Except.ok [123, 125]
  repairRes := fun d => Except.ok d
  parseRes := fun _ => Except.ok ()
  convertSingleRes := fun _ _ _ => some (GoError.other "invalid format option")
  separateRes := fun _ _ => none
  extractRes := Except.ok "[]"

/-- Counterexample to C7: the format option "5" is outside {1,2,3,4},
yet the flow prompts for the destination CSV file name, requests the
overwrite confirmation and invokes the converter with the invalid
option — side effects the claim says must not happen. -/
theorem C7_counterexample :
    goAtoi "5" = some 5
    ∧ Event.prompted PromptEnterCSVFileName ∈ (processCSVOption c7World none 0).2
    ∧ Event.confirmed "out" ∈ (processCSVOption c7World none 0).2
    ∧ Event.convertCalled 5 "out" ∈ (processCSVOption c7World none 0).2 := by
  decide

/-- C7 amended: an output option outside {"1","2"} aborts with only the
invalid-option message, and a non-numeric CSV format string aborts with
only the invalid-format message; but a numeric CSV format option outside
{1,2,3,4} is not rejected — the flow still prompts for a destination
file name and requests the overwrite confirmation before handing the
invalid option to the converter. -/
theorem C7_amended_invalid_selection :
    (∀ (w : World) (cancelAt : Option Nat) (t : Nat) (opt : String),
        opt ≠ "1" → opt ≠ "2" →
        processOutputOption w cancelAt t opt =
          (Outcome.ret, [Event.printed "Invalid output option."]))
    ∧ (∀ (w : World) (cancelAt : Option Nat) (t : Nat) (s : String),
        promptAt cancelAt t w.formatOptionInput = (s, none) →
        goAtoi s = none →
        processCSVOption w cancelAt t =
          (Outcome.ret, [Event.prompted PromptSelectCSVOutputFormat,
            Event.printed "Invalid format option."]))
    ∧ (∀ (w : World) (cancelAt : Option Nat) (t : Nat) (n : Int),
        n ≠ 1 → n ≠ 2 → n ≠ 3 → n ≠ 4 →
        (promptAt cancelAt t w.csvNameInput).2 = none →
        Event.prompted PromptEnterCSVFileName ∈ (executeCSVConversion w cancelAt t n).2
        ∧ Event.confirmed (promptAt cancelAt t w.csvNameInput).1
            ∈ (executeCSVConversion w cancelAt t n).2) := by
  refine ⟨?_, ?_, ?_⟩
  · intro w cancelAt t opt h1 h2
    simp [processOutputOption, h1, h2]
  · intro w cancelAt t s hs ha
    simp [processCSVOption, hs, ha]
  · intro w cancelAt t n h1 h2 h3 h4 hq
    rcases hqq : promptAt cancelAt t w.csvNameInput with ⟨name, oe⟩
    rw [hqq] at hq
    simp at hq
    subst hq
    cases hc : w.confirmRes (isCanceled cancelAt (t + 1)) name with
    | error e =>
      simp [executeCSVConversion, convertToSingleCSV, h3, hqq, hc]
    | ok b =>
      cases b with
      | false =>
        simp [executeCSVConversion, convertToSingleCSV, h3, hqq, hc]
      | true =>
        cases hcv : w.convertSingleRes (isCanceled cancelAt (t + 2)) n name with
        | none =>
          simp [executeCSVConversion, convertToSingleCSV, h3, hqq, hc, hcv]
        | some e =>
          by_cases he : e = GoError.contextCanceled <;>
            simp [executeCSVConversion, convertToSingleCSV, h3, hqq, hc, hcv, he]

/-- Witness for the amended C7: format option 5 still prompts for the
destination and requests the confirmation. -/
theorem C7_amended_invalid_selection_witness :
    Event.prompted PromptEnterCSVFileName ∈ (executeCSVConversion c7World none 1 5).2
    ∧ Event.confirmed (promptAt none 1 c7World.csvNameInput).1
        ∈ (executeCSVConversion c7World none 1 5).2 :=
  C7_amended_invalid_selection.2.2 c7World none 1 5 (by decide) (by decide) (by decide)
    (by decide) (by decide)

/-- Concrete environment for the C10 counterexample: the save-answer
prompt fails with an ordinary read error. -/
def c10World : World where
  jsonPathInput := ("a.json", none)
  repairAnswerInput := ("no", none)
  outputOptionInput := ("2", none)
  formatOptionInput := ("1", none)
  csvNameInput := ("out", none)
  sessionsNameInput := ("s", none)
  messagesNameInput := ("m", none)
  saveAnswerInput := ("", some (GoError.other "read failure"))
  fileNameInput := ("f", none)
  confirmRes := fun _ _ => Except.ok true
  writeRes := fun _ => none
  readRes := fun _ => Except.ok [123, 125]
  repairRes := fun d => Except.ok d
  parseRes := fun _ => Except.ok ()
  convertSingleRes := fun _ _ _ => none
  separateRes := fun _ _ => none
  extractRes := Except.ok "[]"

/-- Counterexample to C10: on the prompt-error path no write is
performed, but saveToFile does not return — handleInputError terminates
the process with exit status 1. -/
theorem C10_counterexample :
    (saveToFile c10World none 0 "content" "dataset").1 = Outcome.exit 1
    ∧ ¬ (saveToFile c10World none 0 "content" "dataset").1 = Outcome.ret
    ∧ writeEvents (saveToFile c10World none 0 "content" "dataset").2 = [] := by
  decide

/-- C10 amended: saveToFile calls WriteFile at most once, and exactly
when the save answer lowercases to "yes", the entered file name is
non-empty (with no prompt error) and the overwrite confirmation returns
true; on every other path no write is performed — but paths with a
prompt or confirmation error terminate the process through
handleInputError (status 0 for Canceled/EOF, 1 otherwise) instead of
returning. -/
theorem C10_amended_write_conditions :
    ∀ (w : World) (cancelAt : Option Nat) (t : Nat) (content fileType : String),
      (writeEvents (saveToFile w cancelAt t content fileType).2).length ≤ 1
      ∧ (writeEvents (saveToFile w cancelAt t content fileType).2 ≠ [] ↔
          ((promptAt cancelAt t w.saveAnswerInput).2 = none
           ∧ goToLower (promptAt cancelAt t w.saveAnswerInput).1 = "yes"
           ∧ (promptAt cancelAt (t + 1) w.fileNameInput).2 = none
           ∧ (promptAt cancelAt (t + 1) w.fileNameInput).1 ≠ ""
           ∧ w.confirmRes (isCanceled cancelAt (t + 2))
               (saveFileName fileType (promptAt cancelAt (t + 1) w.fileNameInput).1)
              = Except.ok true)) := by
  intro w cancelAt t content fileType
  rcases hp : promptAt cancelAt t w.saveAnswerInput with ⟨a, ae⟩
  cases ae with
  | some e =>
    simp [saveToFile, hp, handleInputError_no_write e]
  | none =>
    by_cases hy : goToLower a = "yes"
    · rcases hq : promptAt cancelAt (t + 1) w.fileNameInput with ⟨b, be⟩
      cases be with
      | some e =>
        simp [saveToFile, hp, hy, hq, handleInputError_no_write e]
      | none =>
        by_cases hb : b = ""
        · simp [saveToFile, hp, hy, hq, hb]
        · cases hc : w.confirmRes (isCanceled cancelAt (t + 2)) (saveFileName fileType b) with
          | error e =>
            simp [saveToFile, hp, hy, hq, hb, hc, handleInputError_no_write e]
          | ok bb =>
            cases bb with
            | false => simp [saveToFile, hp, hy, hq, hb, hc]
            | true =>
              cases hw : w.writeRes (saveFileName fileType b) with
              | some e => simp [saveToFile, hp, hy, hq, hb, hc, hw]
              | none => simp [saveToFile, hp, hy, hq, hb, hc, hw]
    · simp [saveToFile, hp, hy]

/-- Concrete environment for the C10 witness: every save condition
holds, so exactly one write occurs. -/
def c10bWorld : World where
  jsonPathInput := ("a.json", none)
  repairAnswerInput := ("no", none)
  outputOptionInput := ("2", none)
  formatOptionInput := ("1", none)
  csvNameInput := ("out", none)
  sessionsNameInput := ("s", none)
  messagesNameInput := ("m", none)
  saveAnswerInput := ("Yes", none)
  fileNameInput := ("records", none)
  confirmRes := fun _ _ => Except.ok true
  writeRes := fun _ => none
  readRes := fun _ => Except.ok [123, 125]
  repairRes := fun d => Except.ok d
  parseRes := fun _ => Except.ok ()
  convertSingleRes := fun _ _ _ => none
  separateRes := fun _ _ => none
  extractRes := Except.ok "[]"

/-- Witness for the amended C10: when all three conditions hold a write
is performed. -/
theorem C10_amended_write_conditions_witness :
    writeEvents (saveToFile c10bWorld none 0 "content" "dataset").2 ≠ [] :=
  (C10_amended_write_conditions c10bWorld none 0 "content" "dataset").2.mpr
    ⟨rfl, by decide, rfl, by decide, rfl⟩
